import Mathlib

/-!
Formalization of the agricultural-grant research pipeline of the
open-deep-research repository: the grant-research library (two variants of
`generateGrantQueries`, `processGrantResults`, `researchAgricultureGrants`,
`writeGrantReport`) and the `POST /api/research/grants` route's async
pipeline task.

External services (the structured-output model calls and the firecrawl
search) are modelled as inputs: a model response is a value, a call that can
throw is an `Except String` value supplied by the environment.  `trimPrompt`
comes from a module outside the pipeline source and no claim depends on its
internals, so it is a `String → String` parameter.
-/

/-- A grant record as extracted by the model (`GrantInfo` in the source;
the second source variant names the process-steps field
`applicationProcess`, the first `applicationProcessSteps`). -/
structure GrantInfo where
  name : String
  description : String
  eligibilityRequirements : List String
  applicationProcessSteps : List String
  deadlines : List String
  fundingAmount : String
  contactInformation : String
  applicationUrl : String
deriving Repr, DecidableEq

/-- `GrantResearchResult` from the source: deduplicated grants plus
deduplicated visited URLs. -/
structure GrantResearchResult where
  grants : List GrantInfo
  visitedUrls : List String
deriving Repr, DecidableEq

/-- One element of the model's response to the query-generation call:
`\x7b query, targetGoal \x7d` in the zod schema. -/
structure SerpQueryObj where
  query : String
  targetGoal : String
deriving Repr, DecidableEq

/-- One page result from the firecrawl search: `markdown` may be absent
(`undefined`), `url` may be absent. -/
structure SearchItem where
  markdown : Option String
  url : Option String
deriving Repr, DecidableEq

/-- `SearchResponse` as used by the source: the `data` array of page
results. -/
structure SearchResponse where
  data : List SearchItem
deriving Repr, DecidableEq

namespace formatProgress

/-- `formatProgress.generating` from the source. -/
def generating (count : Nat) (query : String) : String :=
  "Generating up to " ++ toString count ++ " grant-related SERP queries\n" ++ query

/-- `formatProgress.created` from the source. -/
def created (count : Nat) (queries : String) : String :=
  "Created " ++ toString count ++ " grant-related SERP queries\n" ++ queries

/-- `formatProgress.researching` from the source. -/
def researching (query : String) : String :=
  "Researching agricultural grants\n" ++ query

/-- `formatProgress.found` from the source. -/
def found (count : Nat) (query : String) : String :=
  "Found " ++ toString count ++ " potential grant resources\n" ++ query

/-- `formatProgress.ran` from the source. -/
def ran (query : String) (count : Nat) : String :=
  "Ran \"" ++ query ++ "\"\n" ++ toString count ++ " content items found"

/-- `formatProgress.generated` from the source. -/
def generated (count : Nat) : String :=
  "Found " ++ toString count ++ " relevant agricultural grants"

end formatProgress

/-- `generateGrantQueries`: emits the "generating" progress message, issues
the model call (whose parsed response `modelQueries` is an input here),
emits the "created" progress message built from the full response, and
returns `res.object.queries.slice(0, numQueries).map(q => q.query)`.
Result: (progress messages in order, returned query strings). -/
def generateGrantQueries (numQueries : Nat) (query : String)
    (modelQueries : List SerpQueryObj) : List String × List String :=
  let queriesList := String.intercalate ", " (modelQueries.map SerpQueryObj.query)
  ([formatProgress.generating numQueries query,
    formatProgress.created modelQueries.length queriesList],
   (modelQueries.take numQueries).map SerpQueryObj.query)

/-- The `compact(result.data.map(item => item.markdown))` step of
`processGrantResults`: lodash `compact` drops falsey values, i.e. absent
markdown (`undefined`) and the empty string. -/
def compactMarkdown (data : List SearchItem) : List String :=
  (data.filterMap SearchItem.markdown).filter (fun s => s ≠ "")

/-- `processGrantResults`: computes
`contents = compact(result.data.map(item => item.markdown)).map(c => trimPrompt(c, 25000))`,
emits the "Ran ..." progress message, short-circuits with empty grants and
empty visited URLs when `contents` is empty, and otherwise issues the
extraction model call (outcome `extraction`, an input here: the parsed
grants, or the thrown error).  On success it emits the "Found N relevant
agricultural grants" message and returns the grants together with
`result.data.map(r => r.url).filter(url => url != null)`.
Result: (progress messages in order, thrown error or (grants, visitedUrls)). -/
def processGrantResults (trim : String → String) (query : String)
    (result : SearchResponse) (extraction : Except String (List GrantInfo)) :
    List String × Except String (List GrantInfo × List String) :=
  let contents := (compactMarkdown result.data).map trim
  let ranMsg := formatProgress.ran query contents.length
  if contents.length = 0 then
    ([ranMsg], Except.ok ([], []))
  else
    match extraction with
    | Except.error e => ([ranMsg], Except.error e)
    | Except.ok grants =>
        ([ranMsg, formatProgress.generated grants.length],
         Except.ok (grants, result.data.filterMap SearchItem.url))

/-- One `set` operation of a JavaScript `Map` keyed by grant name: replace
the value at an existing key in place, otherwise append the new entry. -/
def insertMap : List (String × GrantInfo) → String → GrantInfo →
    List (String × GrantInfo)
  | [], k, v => [(k, v)]
  | p :: ps, k, v => if p.1 = k then (k, v) :: ps else p :: insertMap ps k v

/-- `new Map(allGrants.map(grant => [grant.name, grant]))`: insert each
(name, grant) pair in encounter order. -/
def grantsToMap (gs : List GrantInfo) : List (String × GrantInfo) :=
  gs.foldl (fun m g => insertMap m g.name g) []

/-- `Array.from(new Map(allGrants.map(grant => [grant.name, grant])).values())`:
the deduplicated grants, in the map's key-insertion order. -/
def uniqueGrants (gs : List GrantInfo) : List GrantInfo :=
  (grantsToMap gs).map Prod.snd

/-- Lookup in the association-list model of the JavaScript `Map`. -/
def lookupName : List (String × GrantInfo) → String → Option GrantInfo
  | [], _ => none
  | p :: ps, n => if p.1 = n then some p.2 else lookupName ps n

/-- The last grant with a given name in encounter order, if any. -/
def lastWithName : List GrantInfo → String → Option GrantInfo
  | [], _ => none
  | g :: gs, n =>
      match lastWithName gs n with
      | some r => some r
      | none => if g.name = n then some g else none

/-- `Array.from(new Set(allVisitedUrls))`: deduplicate keeping the first
occurrence of each URL, in order. -/
def dedupUrls (xs : List String) : List String :=
  xs.foldl (fun acc u => if u ∈ acc then acc else acc ++ [u]) []

/-- The outcome of the external world for one SERP query: the firecrawl
search (a `SearchResponse`, or a thrown error) and, should the extraction
model call be issued, its outcome. -/
structure QueryEnv where
  search : Except String SearchResponse
  extraction : Except String (List GrantInfo)

/-- The observable behaviour of one iteration of the query loop of
`researchAgricultureGrants`: progress messages, `console.error` log calls
(each a pair of the two arguments), and the grants and visited URLs pushed
onto the accumulators. -/
structure QueryRun where
  progress : List String
  logs : List (String × String)
  grants : List GrantInfo
  urls : List String
deriving Repr, DecidableEq

/-- The progress message emitted by the `catch` block of the query loop:
`Error researching grants with "${serpQuery}": ${e}`. -/
def queryFailMsg (serpQuery e : String) : String :=
  "Error researching grants with \"" ++ serpQuery ++ "\": " ++ e

/-- The `console.error` call of the `catch` block of the query loop:
`console.error("Error running grant query: ${serpQuery}: ", e)`. -/
def queryFailLog (serpQuery e : String) : String × String :=
  ("Error running grant query: " ++ serpQuery ++ ": ", e)

/-- One iteration of the `for (const serpQuery of serpQueries)` loop of
`researchAgricultureGrants`: emit the "researching" message, run the search
(which may throw), emit the "found" message, and when the search returned
any data run `processGrantResults` (which may throw) and push its grants
and URLs.  A thrown error is caught: it is logged via `console.error` and
reported as a progress message, and the iteration contributes nothing. -/
def runQuery (trim : String → String) (serpQuery : String) (env : QueryEnv) :
    QueryRun :=
  let researchingMsg := formatProgress.researching serpQuery
  match env.search with
  | Except.error e =>
      ⟨[researchingMsg, queryFailMsg serpQuery e], [queryFailLog serpQuery e], [], []⟩
  | Except.ok sr =>
      let foundMsg := formatProgress.found sr.data.length serpQuery
      if sr.data.length = 0 then
        ⟨[researchingMsg, foundMsg], [], [], []⟩
      else
        match processGrantResults trim serpQuery sr env.extraction with
        | (msgs, Except.error e) =>
            ⟨[researchingMsg, foundMsg] ++ msgs ++ [queryFailMsg serpQuery e],
             [queryFailLog serpQuery e], [], []⟩
        | (msgs, Except.ok (grants, urls)) =>
            ⟨[researchingMsg, foundMsg] ++ msgs, [], grants, urls⟩

/-- The SERP queries `researchAgricultureGrants` iterates over. -/
def serpQueriesOf (numQueries : Nat) (query : String)
    (modelQueries : List SerpQueryObj) : List String :=
  (generateGrantQueries numQueries query modelQueries).2

/-- The query-loop iterations of `researchAgricultureGrants`, in order. -/
def queryRuns (trim : String → String) (numQueries : Nat) (query : String)
    (modelQueries : List SerpQueryObj) (env : String → QueryEnv) :
    List QueryRun :=
  (serpQueriesOf numQueries query modelQueries).map
    (fun q => runQuery trim q (env q))

/-- `researchAgricultureGrants`: generate the SERP queries, run the
sequential query loop accumulating `allGrants` and `allVisitedUrls` (the
`push` calls, written here as the concatenation of the per-iteration
contributions in order), then deduplicate grants by name through the
JavaScript `Map` and URLs through `Set`.
Result: (progress messages, `console.error` logs, `GrantResearchResult`). -/
def researchAgricultureGrants (trim : String → String) (numQueries : Nat)
    (query : String) (modelQueries : List SerpQueryObj)
    (env : String → QueryEnv) :
    List String × List (String × String) × GrantResearchResult :=
  let qres := generateGrantQueries numQueries query modelQueries
  let runs := queryRuns trim numQueries query modelQueries env
  let allGrants := (runs.map QueryRun.grants).flatten
  let allVisitedUrls := (runs.map QueryRun.urls).flatten
  (qres.1 ++ (runs.map QueryRun.progress).flatten,
   (runs.map QueryRun.logs).flatten,
   ⟨uniqueGrants allGrants, dedupUrls allVisitedUrls⟩)

/-- The model response of `generateGrantTemplate`:
`\x7b applicationTemplate, additionalTips \x7d` in the zod schema. -/
structure ApplicationTemplate where
  applicationTemplate : String
  additionalTips : List String
deriving Repr, DecidableEq

/-- The `farmDetails` template literal shared by `researchAgricultureGrants`
callers and `writeGrantReport`:
`${query}\n${farmType ? ... : ''}\n${location ? ... : ''}`. -/
def farmDetailsOf (query : String) (farmType location : Option String) : String :=
  query ++ "\n"
    ++ (match farmType with
        | some t => "Farm/Ranch Type: " ++ t
        | none => "") ++ "\n"
    ++ (match location with
        | some l => "Location: " ++ l
        | none => "")

/-- The per-grant markdown block of `grantsString` in `writeGrantReport`
(template variant; its `GrantInfo` names the steps field
`applicationProcess`). -/
def grantMarkdownBlock (grant : GrantInfo) : String :=
  "\n## " ++ grant.name ++ "\n\n"
    ++ grant.description ++ "\n\n"
    ++ "**Eligibility Requirements:**\n"
    ++ String.intercalate "\n" (grant.eligibilityRequirements.map (fun req => "- " ++ req))
    ++ "\n\n**Application Process:**\n"
    ++ String.intercalate "\n"
        (grant.applicationProcessSteps.mapIdx (fun i step => toString (i + 1) ++ ". " ++ step))
    ++ "\n\n**Deadlines:**\n"
    ++ String.intercalate "\n" (grant.deadlines.map (fun deadline => "- " ++ deadline))
    ++ "\n\n**Funding Amount:** " ++ grant.fundingAmount
    ++ "\n\n**Contact Information:** " ++ grant.contactInformation
    ++ "\n\n**Application URL:** [Apply Here](" ++ grant.applicationUrl ++ ")"
    ++ "\n\n---"

/-- `grantsString` of `writeGrantReport`: the per-grant blocks joined with
newlines. -/
def grantsString (grants : List GrantInfo) : String :=
  String.intercalate "\n" (grants.map grantMarkdownBlock)

/-- `generateGrantTemplate`: one structured-output model call built from the
grant information and the farm details; the model (an input here) returns
the application template and tips. -/
def generateGrantTemplate (grantInfo : GrantInfo) (farmDetails : String)
    (model : GrantInfo → String → ApplicationTemplate) : ApplicationTemplate :=
  model grantInfo farmDetails

/-- The per-template markdown block of `templatesString` in
`writeGrantReport`. -/
def templateMarkdownBlock (grantName : String) (t : ApplicationTemplate) : String :=
  "\n# Application Template for " ++ grantName ++ "\n\n"
    ++ t.applicationTemplate
    ++ "\n\n## Application Tips\n\n"
    ++ String.intercalate "\n" (t.additionalTips.map (fun tip => "- " ++ tip))
    ++ "\n\n---"

/-- `writeGrantReport` (template variant): builds `farmDetails` and
`grantsString`, generates application templates for `grants.slice(0, 3)`,
builds `templatesString`, issues the report model call (`reportModel`, an
input here, receives the three prompt components and returns
`reportMarkdown`), and returns the fixed header, the model's markdown, and
the string-concatenated `## Sources` section listing every visited URL. -/
def writeGrantReport (query : String) (farmType location : Option String)
    (grants : List GrantInfo) (visitedUrls : List String)
    (templateModel : GrantInfo → String → ApplicationTemplate)
    (reportModel : String → String → String → String) : String :=
  let farmDetails := farmDetailsOf query farmType location
  let gs := grantsString grants
  let templates := (grants.take 3).map
    (fun grant => (grant.name, generateGrantTemplate grant farmDetails templateModel))
  let templatesString :=
    String.intercalate "\n" (templates.map (fun t => templateMarkdownBlock t.1 t.2))
  let reportMarkdown := reportModel farmDetails gs templatesString
  let urlsSection :=
    "\n\n## Sources\n\n"
      ++ String.intercalate "\n" (visitedUrls.map (fun url => "- " ++ url))
  "# Agricultural Grant Opportunities Report\n\n" ++ reportMarkdown ++ urlsSection

/-- One `data:` frame written to the output stream by the route. -/
inductive StreamPayload where
  | progress (msg : String)
  | done (report : String)
  | error (msg : String)
deriving Repr, DecidableEq

/-- An operation on the output stream writer of the route. -/
inductive WriterAction where
  | write (payload : StreamPayload)
  | close
deriving Repr, DecidableEq

/-- The async pipeline task of `POST /api/research/grants`, as the sequence
of writer operations it performs.  `research` is the awaited outcome of
`researchAgricultureGrants` (a `GrantResearchResult`, or a thrown error) and
`writeReport` the outcome of the `writeGrantReport` call on a given result.
The `try` body: on zero grants, a progress frame, the fixed `done` frame, an
explicit `writer.close()` and an early `return`; otherwise a progress frame,
the report call, and the `done` frame.  The `catch` block writes an `error`
frame.  The `finally` block calls `writer.close()` on every path — including
after the early `return` of the zero-grants branch, whose explicit close it
repeats. -/
def pipelineTask (research : Except String GrantResearchResult)
    (writeReport : GrantResearchResult → Except String String) :
    List WriterAction :=
  match research with
  | Except.error e =>
      [WriterAction.write (StreamPayload.error ("Error in grant research: " ++ e)),
       WriterAction.close]
  | Except.ok result =>
      if result.grants.length = 0 then
        [WriterAction.write (StreamPayload.progress
           "No grants found. Try refining your search or providing more details about your farm/ranch."),
         WriterAction.write (StreamPayload.done
           "No grants found that match your criteria."),
         WriterAction.close,
         WriterAction.close]
      else
        let progressMsg :=
          "Generating comprehensive report for "
            ++ toString result.grants.length ++ " grants..."
        match writeReport result with
        | Except.error e =>
            [WriterAction.write (StreamPayload.progress progressMsg),
             WriterAction.write (StreamPayload.error ("Error in grant research: " ++ e)),
             WriterAction.close]
        | Except.ok report =>
            [WriterAction.write (StreamPayload.progress progressMsg),
             WriterAction.write (StreamPayload.done report),
             WriterAction.close]

/-- Whether a writer operation is a `close`. -/
def isClose : WriterAction → Bool
  | WriterAction.close => true
  | WriterAction.write _ => false

/-- The number of `writer.close()` calls in a writer-operation sequence. -/
def countClose (as : List WriterAction) : Nat :=
  as.countP isClose

/-- Looking a name up after a `Map.set`: the inserted key now maps to the
inserted value, every other key is unaffected. -/
theorem lookupName_insertMap (m : List (String × GrantInfo)) (k : String)
    (v : GrantInfo) (n : String) :
    lookupName (insertMap m k v) n = if n = k then some v else lookupName m n := by
  induction m with
  | nil =>
      by_cases hnk : n = k
      · subst hnk; simp [insertMap, lookupName]
      · have hkn : ¬ k = n := fun h => hnk h.symm
        simp [insertMap, lookupName, hnk, hkn]
  | cons p ps ih =>
      by_cases hpk : p.1 = k
      · by_cases hnk : n = k
        · subst hnk; simp [insertMap, lookupName, hpk]
        · have hkn : ¬ k = n := fun h => hnk h.symm
          have hpn : ¬ p.1 = n := fun h => hnk (hpk.symm.trans h).symm
          simp [insertMap, lookupName, hpk, hnk, hkn, hpn]
      · by_cases hpn : p.1 = n
        · have hnk : ¬ n = k := fun h => hpk (hpn.trans h)
          simp [insertMap, lookupName, hpk, hpn, hnk]
        · simp [insertMap, lookupName, hpk, hpn, ih]

/-- Folding the remaining grants into the map: the final binding of a name
is its last occurrence among the remaining grants, else its binding in the
accumulated map. -/
theorem lookupName_foldl_insert (gs : List GrantInfo)
    (m : List (String × GrantInfo)) (n : String) :
    lookupName (gs.foldl (fun m g => insertMap m g.name g) m) n
      = (lastWithName gs n).or (lookupName m n) := by
  induction gs generalizing m with
  | nil => simp [lastWithName]
  | cons g gs ih =>
      rw [List.foldl_cons, ih, lookupName_insertMap]
      cases hl : lastWithName gs n with
      | some r => simp [lastWithName, hl, Option.or]
      | none =>
          by_cases hgn : g.name = n
          · simp [lastWithName, hl, hgn, Option.or]
          · have hng : ¬ n = g.name := fun h => hgn h.symm
            simp [lastWithName, hl, hgn, hng, Option.or]

/-- The binding of a name in the deduplicating map is the last grant with
that name in encounter order. -/
theorem lookupName_grantsToMap (gs : List GrantInfo) (n : String) :
    lookupName (grantsToMap gs) n = lastWithName gs n := by
  rw [grantsToMap, lookupName_foldl_insert]
  simp [lookupName]

/-- Membership after a `Map.set`: every entry was already present or is the
inserted pair. -/
theorem mem_insertMap {m : List (String × GrantInfo)} {k : String}
    {v : GrantInfo} {p : String × GrantInfo} (h : p ∈ insertMap m k v) :
    p ∈ m ∨ p = (k, v) := by
  induction m with
  | nil => simpa [insertMap] using h
  | cons q qs ih =>
      by_cases hqk : q.1 = k
      · simp only [insertMap, if_pos hqk, List.mem_cons] at h
        rcases h with h | h
        · exact Or.inr h
        · exact Or.inl (List.mem_cons_of_mem _ h)
      · simp only [insertMap, if_neg hqk, List.mem_cons] at h
        rcases h with h | h
        · exact Or.inl (h ▸ List.mem_cons_self _ _)
        · rcases ih h with h' | h'
          · exact Or.inl (List.mem_cons_of_mem _ h')
          · exact Or.inr h'

/-- Every entry of the deduplicating map binds a grant to its own name. -/
theorem grantsToMap_key_eq_name (gs : List GrantInfo) :
    ∀ p ∈ grantsToMap gs, p.1 = p.2.name := by
  have aux : ∀ (gs : List GrantInfo) (m : List (String × GrantInfo)),
      (∀ p ∈ m, p.1 = p.2.name) →
      ∀ p ∈ gs.foldl (fun m g => insertMap m g.name g) m, p.1 = p.2.name := by
    intro gs
    induction gs with
    | nil => intro m hm; simpa using hm
    | cons g gs ih =>
        intro m hm p hp
        refine ih (insertMap m g.name g) ?_ p hp
        intro q hq
        rcases mem_insertMap hq with h | h
        · exact hm q h
        · subst h; rfl
  exact aux gs [] (by simp)

/-- The keys of the association-list model of the JavaScript `Map`. -/
def keysOf (m : List (String × GrantInfo)) : List String := m.map Prod.fst

/-- A key present after a `Map.set` was already present or is the inserted
key. -/
theorem mem_keysOf_insertMap {m : List (String × GrantInfo)} {k : String}
    {v : GrantInfo} {n : String} (h : n ∈ keysOf (insertMap m k v)) :
    n ∈ keysOf m ∨ n = k := by
  induction m with
  | nil => simpa [insertMap, keysOf] using h
  | cons p ps ih =>
      by_cases hpk : p.1 = k
      · simp only [insertMap, if_pos hpk, keysOf, List.map_cons, List.mem_cons] at h
        rcases h with h | h
        · exact Or.inr h
        · exact Or.inl (by simp [keysOf, List.mem_cons]; right; simpa [keysOf] using h)
      · simp only [insertMap, if_neg hpk, keysOf, List.map_cons, List.mem_cons] at h
        rcases h with h | h
        · exact Or.inl (by simp [keysOf, h])
        · rcases ih (by simpa [keysOf] using h) with h' | h'
          · exact Or.inl (by simp [keysOf] at h' ⊢; exact Or.inr h')
          · exact Or.inr h'

/-- `Map.set` preserves the distinctness of the keys. -/
theorem keysOf_insertMap_nodup {m : List (String × GrantInfo)} {k : String}
    {v : GrantInfo} (h : (keysOf m).Nodup) : (keysOf (insertMap m k v)).Nodup := by
  induction m with
  | nil => simp [insertMap, keysOf]
  | cons p ps ih =>
      simp only [keysOf, List.map_cons, List.nodup_cons] at h
      by_cases hpk : p.1 = k
      · simp only [insertMap, if_pos hpk, keysOf, List.map_cons, List.nodup_cons]
        exact ⟨hpk ▸ h.1, h.2⟩
      · simp only [insertMap, if_neg hpk, keysOf, List.map_cons, List.nodup_cons]
        refine ⟨?_, ih h.2⟩
        intro hmem
        rcases mem_keysOf_insertMap (by simpa [keysOf] using hmem) with h' | h'
        · exact h.1 (by simpa [keysOf] using h')
        · exact hpk h'

/-- The deduplicating map has pairwise-distinct keys. -/
theorem grantsToMap_keys_nodup (gs : List GrantInfo) :
    (keysOf (grantsToMap gs)).Nodup := by
  have aux : ∀ (gs : List GrantInfo) (m : List (String × GrantInfo)),
      (keysOf m).Nodup →
      (keysOf (gs.foldl (fun m g => insertMap m g.name g) m)).Nodup := by
    intro gs
    induction gs with
    | nil => intro m hm; simpa using hm
    | cons g gs ih => intro m hm; exact ih _ (keysOf_insertMap_nodup hm)
  exact aux gs [] (by simp [keysOf])

/-- In a map with distinct keys, membership of an entry determines the
lookup. -/
theorem lookupName_of_mem {m : List (String × GrantInfo)}
    (hnd : (keysOf m).Nodup) {k : String} {g : GrantInfo} (h : (k, g) ∈ m) :
    lookupName m k = some g := by
  induction m with
  | nil => simp at h
  | cons p ps ih =>
      simp only [keysOf, List.map_cons, List.nodup_cons] at hnd
      rcases List.mem_cons.mp h with h | h
      · subst h; simp [lookupName]
      · have hk : k ∈ keysOf ps := by
          simpa [keysOf] using List.mem_map_of_mem Prod.fst h
        have hpk : ¬ p.1 = k := fun he => hnd.1 (he ▸ hk)
        simp only [lookupName, if_neg hpk]
        exact ih hnd.2 h

/-- Every grant in the deduplicated output is the LAST grant bearing its
name in encounter order: the JavaScript `Map` construction overwrites the
stored value when a later duplicate arrives. -/
theorem mem_uniqueGrants_lastWithName {gs : List GrantInfo} {g : GrantInfo}
    (h : g ∈ uniqueGrants gs) : lastWithName gs g.name = some g := by
  rcases List.mem_map.mp h with ⟨p, hp, hpg⟩
  have hk : p.1 = p.2.name := grantsToMap_key_eq_name gs p hp
  have hl : lookupName (grantsToMap gs) p.1 = some p.2 :=
    lookupName_of_mem (grantsToMap_keys_nodup gs) (by cases p; exact hp)
  rw [lookupName_grantsToMap] at hl
  rw [← hpg, ← hk]
  exact hl

/-- The names of the deduplicated grants are exactly the keys of the map. -/
theorem uniqueGrants_map_name (gs : List GrantInfo) :
    (uniqueGrants gs).map GrantInfo.name = keysOf (grantsToMap gs) := by
  unfold uniqueGrants keysOf
  rw [List.map_map]
  have : ∀ p ∈ grantsToMap gs, (GrantInfo.name ∘ Prod.snd) p = Prod.fst p := by
    intro p hp
    exact (grantsToMap_key_eq_name gs p hp).symm
  exact List.map_congr_left this

/-- No two grants in the deduplicated output share a name. -/
theorem uniqueGrants_names_nodup (gs : List GrantInfo) :
    ((uniqueGrants gs).map GrantInfo.name).Nodup := by
  rw [uniqueGrants_map_name]
  exact grantsToMap_keys_nodup gs

/-- The `Set`-based URL deduplication never produces a duplicate. -/
theorem dedupUrls_nodup (xs : List String) : (dedupUrls xs).Nodup := by
  have aux : ∀ (xs acc : List String), acc.Nodup →
      (xs.foldl (fun acc u => if u ∈ acc then acc else acc ++ [u]) acc).Nodup := by
    intro xs
    induction xs with
    | nil => intro acc h; simpa using h
    | cons x xs ih =>
        intro acc h
        rw [List.foldl_cons]
        by_cases hx : x ∈ acc
        · simpa [hx] using ih acc h
        · refine ih _ ?_
          simp only [if_neg hx]
          exact h.append (List.nodup_singleton x)
            (fun a ha hb => hx (by simp at hb; exact hb ▸ ha))
  exact aux xs [] List.nodup_nil

/-- Every URL surviving the `Set`-based deduplication came from the input. -/
theorem mem_dedupUrls {xs : List String} {y : String}
    (h : y ∈ dedupUrls xs) : y ∈ xs := by
  have aux : ∀ (xs acc : List String), y ∈
      xs.foldl (fun acc u => if u ∈ acc then acc else acc ++ [u]) acc →
      y ∈ acc ∨ y ∈ xs := by
    intro xs
    induction xs with
    | nil => intro acc h; exact Or.inl (by simpa using h)
    | cons x xs ih =>
        intro acc h
        rw [List.foldl_cons] at h
        by_cases hx : x ∈ acc
        · rcases ih _ (by simpa [hx] using h) with h' | h'
          · exact Or.inl h'
          · exact Or.inr (List.mem_cons_of_mem _ h')
        · rcases ih _ (by simpa [hx] using h) with h' | h'
          · rcases List.mem_append.mp h' with h'' | h''
            · exact Or.inl h''
            · exact Or.inr (by simp at h''; simp [h''])
          · exact Or.inr (List.mem_cons_of_mem _ h')
  rcases aux xs [] h with h' | h'
  · simp at h'
  · exact h'

/-- C6: for every model response, `generateGrantQueries` returns at most
`numQueries` query strings; if the model proposes more than `numQueries`
queries, the returned list is the first `numQueries` of them, in the
model's order. -/
theorem generateGrantQueries_truncates (numQueries : Nat) (query : String)
    (modelQueries : List SerpQueryObj) :
    (generateGrantQueries numQueries query modelQueries).2
      = (modelQueries.map SerpQueryObj.query).take numQueries ∧
    (generateGrantQueries numQueries query modelQueries).2.length ≤ numQueries := by
  constructor
  · simp [generateGrantQueries, List.map_take]
  · simp [generateGrantQueries]

/-- C10: the "Created N grant-related SERP queries" progress message emitted
by `generateGrantQueries` reports the count and text of ALL queries the
model returned, before truncation to `numQueries`; so whenever the model
proposes more than `numQueries` queries, the reported count is strictly
greater than the number of queries actually returned. -/
theorem generateGrantQueries_progress_overcount (numQueries : Nat)
    (query : String) (modelQueries : List SerpQueryObj)
    (h : numQueries < modelQueries.length) :
    (generateGrantQueries numQueries query modelQueries).1
      = [formatProgress.generating numQueries query,
         formatProgress.created modelQueries.length
           (String.intercalate ", " (modelQueries.map SerpQueryObj.query))] ∧
    (generateGrantQueries numQueries query modelQueries).2.length
      < modelQueries.length := by
  refine ⟨rfl, ?_⟩
  simp only [generateGrantQueries, List.length_map, List.length_take]
  omega

/-- Model response used to witness the progress-overcount theorem. -/
def overcountQueries : List SerpQueryObj :=
  [⟨"USDA agricultural grants", "federal grants"⟩,
   ⟨"organic farm funding Oregon", "state programs"⟩]

theorem generateGrantQueries_progress_overcount_witness :
    1 < overcountQueries.length ∧
    ((generateGrantQueries 1 "organic farm" overcountQueries).1
      = [formatProgress.generating 1 "organic farm",
         formatProgress.created overcountQueries.length
           (String.intercalate ", " (overcountQueries.map SerpQueryObj.query))] ∧
     (generateGrantQueries 1 "organic farm" overcountQueries).2.length
       < overcountQueries.length) :=
  ⟨by decide,
   generateGrantQueries_progress_overcount 1 "organic farm" overcountQueries (by decide)⟩

/-- C7: when every supplied page lacks markdown text content (the list is
empty after the `compact` filter), `processGrantResults` returns an empty
grants list and its behaviour is the same for every outcome of the
extraction model call — the `generateObject` extraction step is never
consulted on that path. -/
theorem processGrantResults_empty_contents_short_circuit
    (trim : String → String) (query : String) (result : SearchResponse)
    (h : compactMarkdown result.data = []) :
    ∀ extraction, processGrantResults trim query result extraction
      = ([formatProgress.ran query 0], Except.ok ([], [])) := by
  intro extraction
  simp [processGrantResults, h]

/-- A search response whose pages carry URLs but no usable markdown. -/
def contentlessResponse : SearchResponse :=
  ⟨[⟨none, some "https://example.org/a"⟩, ⟨some "", some "https://example.org/b"⟩]⟩

theorem processGrantResults_empty_contents_short_circuit_witness :
    compactMarkdown contentlessResponse.data = [] ∧
    ∀ extraction, processGrantResults id "grants query" contentlessResponse extraction
      = ([formatProgress.ran "grants query" 0], Except.ok ([], [])) :=
  ⟨by decide,
   processGrantResults_empty_contents_short_circuit id "grants query"
     contentlessResponse (by decide)⟩

/-- C9: on the no-content short-circuit, `processGrantResults` returns an
empty `visitedUrls` list as well — the URLs of retrieved pages with no
markdown are dropped; whereas on the non-short-circuit success path,
`visitedUrls` contains the URLs of ALL retrieved pages, including the
content-less ones. -/
theorem processGrantResults_url_drop_asymmetry
    (trim : String → String) (query : String) (result : SearchResponse) :
    (compactMarkdown result.data = [] →
      ∀ extraction, (processGrantResults trim query result extraction).2
        = Except.ok ([], [])) ∧
    (compactMarkdown result.data ≠ [] →
      ∀ grants, (processGrantResults trim query result (Except.ok grants)).2
        = Except.ok (grants, result.data.filterMap SearchItem.url)) := by
  constructor
  · intro h extraction
    simp [processGrantResults, h]
  · intro h grants
    simp [processGrantResults, h]

/-- A search response mixing a page with markdown and a content-less page,
both carrying URLs. -/
def mixedResponse : SearchResponse :=
  ⟨[⟨some "Grant text", some "https://example.org/c"⟩,
    ⟨none, some "https://example.org/d"⟩]⟩

theorem processGrantResults_url_drop_asymmetry_witness :
    (compactMarkdown contentlessResponse.data = [] ∧
      (processGrantResults id "q" contentlessResponse (Except.ok [])).2
        = Except.ok ([], [])) ∧
    (compactMarkdown mixedResponse.data ≠ [] ∧
      (processGrantResults id "q" mixedResponse (Except.ok [])).2
        = Except.ok ([], mixedResponse.data.filterMap SearchItem.url)) :=
  ⟨⟨by decide,
    (processGrantResults_url_drop_asymmetry id "q" contentlessResponse).1
      (by decide) (Except.ok [])⟩,
   ⟨by decide,
    (processGrantResults_url_drop_asymmetry id "q" mixedResponse).2
      (by decide) []⟩⟩

/-- The `ResearchResult` component of `researchAgricultureGrants`. -/
def researchResultOf (trim : String → String) (numQueries : Nat)
    (query : String) (modelQueries : List SerpQueryObj)
    (env : String → QueryEnv) : GrantResearchResult :=
  (researchAgricultureGrants trim numQueries query modelQueries env).2.2

/-- C4: for every `ResearchResult` returned by `researchAgricultureGrants`,
no two grants share a name, the visited-URL list has no duplicates, and
every visited URL comes from some per-query extraction output's URL list. -/
theorem research_result_invariants (trim : String → String) (numQueries : Nat)
    (query : String) (modelQueries : List SerpQueryObj)
    (env : String → QueryEnv) :
    ((researchResultOf trim numQueries query modelQueries env).grants.map
        GrantInfo.name).Nodup ∧
    (researchResultOf trim numQueries query modelQueries env).visitedUrls.Nodup ∧
    ∀ u ∈ (researchResultOf trim numQueries query modelQueries env).visitedUrls,
      ∃ q ∈ serpQueriesOf numQueries query modelQueries,
        u ∈ (runQuery trim q (env q)).urls := by
  refine ⟨?_, ?_, ?_⟩
  · exact uniqueGrants_names_nodup _
  · exact dedupUrls_nodup _
  · intro u hu
    have h1 : u ∈ ((queryRuns trim numQueries query modelQueries env).map
        QueryRun.urls).flatten := mem_dedupUrls hu
    rcases List.mem_flatten.mp h1 with ⟨l, hl, hul⟩
    rcases List.mem_map.mp hl with ⟨run, hrun, hrl⟩
    rcases List.mem_map.mp hrun with ⟨q, hq, hqr⟩
    exact ⟨q, hq, by rw [hqr, hrl]; exact hul⟩

/-- Model response used to witness the `ResearchResult` invariants. -/
def invQueries : List SerpQueryObj :=
  [⟨"qa", "goal a"⟩, ⟨"qb", "goal b"⟩]

/-- Grant used to witness the `ResearchResult` invariants. -/
def invGrant : GrantInfo :=
  ⟨"Specialty Crop Block Grant", "state program", [], [], [],
   "Not specified", "Not specified", "https://example.org/apply"⟩

/-- Environment used to witness the `ResearchResult` invariants: both
queries succeed and both report the URL `https://example.org/a`. -/
def invEnv : String → QueryEnv := fun q =>
  if q = "qa" then
    ⟨Except.ok ⟨[⟨some "content a", some "https://example.org/a"⟩]⟩,
     Except.ok [invGrant]⟩
  else
    ⟨Except.ok ⟨[⟨some "content b", some "https://example.org/a"⟩,
                 ⟨some "content c", some "https://example.org/b"⟩]⟩,
     Except.ok [invGrant]⟩

theorem research_result_invariants_witness :
    "https://example.org/a" ∈ (researchResultOf id 2 "farm" invQueries invEnv).visitedUrls ∧
    ∃ q ∈ serpQueriesOf 2 "farm" invQueries,
      "https://example.org/a" ∈ (runQuery id q (invEnv q)).urls :=
  ⟨by decide,
   (research_result_invariants id 2 "farm" invQueries invEnv).2.2
     "https://example.org/a" (by decide)⟩

/-- The failure of the search-or-extract step for one SERP query with
thrown error `e`: either the firecrawl search itself threw, or the search
succeeded with a non-empty result carrying usable content and the
extraction model call threw. -/
def queryFails (env : QueryEnv) (e : String) : Prop :=
  env.search = Except.error e ∨
  ∃ sr, env.search = Except.ok sr ∧ sr.data ≠ [] ∧
    compactMarkdown sr.data ≠ [] ∧ env.extraction = Except.error e

/-- A failing query loop iteration contributes no grants and no URLs, and
both reports the failure as a progress message and logs it. -/
theorem runQuery_of_fails {trim : String → String} {q : String}
    {env : QueryEnv} {e : String} (h : queryFails env e) :
    (runQuery trim q env).grants = [] ∧ (runQuery trim q env).urls = [] ∧
    queryFailMsg q e ∈ (runQuery trim q env).progress ∧
    queryFailLog q e ∈ (runQuery trim q env).logs := by
  rcases h with h | ⟨sr, hs, hne, hc, hx⟩
  · simp [runQuery, h]
  · have hlen : ¬ sr.data.length = 0 := by
      simpa [List.length_eq_zero] using hne
    simp [runQuery, hs, hlen, processGrantResults, hc, hx]

/-- C5: per-query failure is never fatal.  If the search or extraction step
for one generated query throws, `researchAgricultureGrants` logs the error
via `console.error`, emits a progress message describing that query's
failure, that query contributes no grants and no URLs, and the returned
`ResearchResult` still aggregates the contributions of every query's loop
iteration — so all remaining (and all non-failing) queries are processed. -/
theorem research_per_query_failure_tolerant (trim : String → String)
    (numQueries : Nat) (query : String) (modelQueries : List SerpQueryObj)
    (env : String → QueryEnv) (q e : String)
    (hq : q ∈ serpQueriesOf numQueries query modelQueries)
    (hfail : queryFails (env q) e) :
    queryFailMsg q e
      ∈ (researchAgricultureGrants trim numQueries query modelQueries env).1 ∧
    queryFailLog q e
      ∈ (researchAgricultureGrants trim numQueries query modelQueries env).2.1 ∧
    (runQuery trim q (env q)).grants = [] ∧
    (runQuery trim q (env q)).urls = [] ∧
    (researchAgricultureGrants trim numQueries query modelQueries env).2.2
      = ⟨uniqueGrants (((queryRuns trim numQueries query modelQueries env).map
            QueryRun.grants).flatten),
         dedupUrls (((queryRuns trim numQueries query modelQueries env).map
            QueryRun.urls).flatten)⟩ := by
  obtain ⟨hg, hu, hm, hlog⟩ := @runQuery_of_fails trim q (env q) e hfail
  have hrun : runQuery trim q (env q)
      ∈ queryRuns trim numQueries query modelQueries env :=
    List.mem_map_of_mem _ hq
  refine ⟨?_, ?_, hg, hu, rfl⟩
  · refine List.mem_append_right _ ?_
    exact List.mem_flatten.mpr ⟨_, List.mem_map_of_mem QueryRun.progress hrun, hm⟩
  · exact List.mem_flatten.mpr ⟨_, List.mem_map_of_mem QueryRun.logs hrun, hlog⟩

/-- Model response used to witness failure tolerance. -/
def failQueries : List SerpQueryObj := [⟨"qa", "goal a"⟩]

/-- Environment used to witness failure tolerance: the search throws. -/
def failEnv : String → QueryEnv :=
  fun _ => ⟨Except.error "network error", Except.ok []⟩

theorem research_per_query_failure_tolerant_witness :
    ("qa" ∈ serpQueriesOf 1 "farm" failQueries ∧
      queryFails (failEnv "qa") "network error") ∧
    (queryFailMsg "qa" "network error"
       ∈ (researchAgricultureGrants id 1 "farm" failQueries failEnv).1 ∧
     queryFailLog "qa" "network error"
       ∈ (researchAgricultureGrants id 1 "farm" failQueries failEnv).2.1 ∧
     (runQuery id "qa" (failEnv "qa")).grants = [] ∧
     (runQuery id "qa" (failEnv "qa")).urls = [] ∧
     (researchAgricultureGrants id 1 "farm" failQueries failEnv).2.2
       = ⟨uniqueGrants (((queryRuns id 1 "farm" failQueries failEnv).map
             QueryRun.grants).flatten),
          dedupUrls (((queryRuns id 1 "farm" failQueries failEnv).map
             QueryRun.urls).flatten)⟩) :=
  ⟨⟨by decide, Or.inl rfl⟩,
   research_per_query_failure_tolerant id 1 "farm" failQueries failEnv
     "qa" "network error" (by decide) (Or.inl rfl)⟩

/-- A grant extracted by an earlier query. -/
def dupFirstGrant : GrantInfo :=
  ⟨"USDA Value-Added Producer Grant", "first extraction", [], [], [],
   "Not specified", "Not specified", "https://example.org/first"⟩

/-- A different grant with the same name, extracted by a later query. -/
def dupSecondGrant : GrantInfo :=
  ⟨"USDA Value-Added Producer Grant", "second extraction", [], [], [],
   "Not specified", "Not specified", "https://example.org/second"⟩

/-- Model response used for the duplicate-name scenario. -/
def dupQueries : List SerpQueryObj := [⟨"qa", "goal a"⟩, ⟨"qb", "goal b"⟩]

/-- Environment for the duplicate-name scenario: the first query extracts
`dupFirstGrant`, the second extracts `dupSecondGrant` (same name). -/
def dupEnv : String → QueryEnv := fun q =>
  if q = "qa" then
    ⟨Except.ok ⟨[⟨some "content a", some "https://example.org/a"⟩]⟩,
     Except.ok [dupFirstGrant]⟩
  else
    ⟨Except.ok ⟨[⟨some "content b", some "https://example.org/b"⟩]⟩,
     Except.ok [dupSecondGrant]⟩

/-- C1 counterexample: two extracted grants share a name, and the
`ResearchResult` keeps the one that occurred LAST in encounter order, not
the first-seen copy — `new Map(...)`'s value is overwritten by the later
duplicate. -/
theorem research_dedup_first_seen_counterexample :
    (researchAgricultureGrants id 2 "farm" dupQueries dupEnv).2.2.grants
      = [dupSecondGrant] ∧
    dupFirstGrant.name = dupSecondGrant.name ∧
    dupFirstGrant ≠ dupSecondGrant := by
  refine ⟨by decide, rfl, by decide⟩

/-- C1 amended: whenever grants fed to the aggregation of
`researchAgricultureGrants` share a name, the grant returned in the
`ResearchResult` under that name is the one that occurred LAST in encounter
order; earlier duplicates are overwritten, not merged. -/
theorem research_dedup_last_seen_wins (trim : String → String)
    (numQueries : Nat) (query : String) (modelQueries : List SerpQueryObj)
    (env : String → QueryEnv) (g : GrantInfo)
    (h : g ∈ (researchAgricultureGrants trim numQueries query modelQueries
        env).2.2.grants) :
    lastWithName (((queryRuns trim numQueries query modelQueries env).map
        QueryRun.grants).flatten) g.name = some g :=
  mem_uniqueGrants_lastWithName h

theorem research_dedup_last_seen_wins_witness :
    dupSecondGrant
        ∈ (researchAgricultureGrants id 2 "farm" dupQueries dupEnv).2.2.grants ∧
    lastWithName (((queryRuns id 2 "farm" dupQueries dupEnv).map
        QueryRun.grants).flatten) dupSecondGrant.name = some dupSecondGrant :=
  ⟨by decide,
   research_dedup_last_seen_wins id 2 "farm" dupQueries dupEnv dupSecondGrant
     (by decide)⟩

/-- A research outcome with no grants, as produced by the zero-grants
scenario. -/
def zeroGrantsResult : GrantResearchResult := ⟨[], []⟩

/-- A report generator outcome used for concrete pipeline runs. -/
def constReportGen : GrantResearchResult → Except String String :=
  fun _ => Except.ok "report body"

/-- C2 counterexample: on the zero-grants short-circuit path the output
stream writer is closed TWICE — once explicitly before the early `return`
and once more by the `finally` block — so it is not closed exactly once in
the guaranteed-cleanup block on every path. -/
theorem pipelineTask_double_close_on_zero_grants :
    countClose (pipelineTask (Except.ok zeroGrantsResult) constReportGen) = 2 ∧
    pipelineTask (Except.ok zeroGrantsResult) constReportGen
      = [WriterAction.write (StreamPayload.progress
           "No grants found. Try refining your search or providing more details about your farm/ranch."),
         WriterAction.write (StreamPayload.done
           "No grants found that match your criteria."),
         WriterAction.close, WriterAction.close] := by
  refine ⟨by decide, by decide⟩

/-- C2 amended: the writer is closed on every path of the pipeline task and
the final writer action is always the `finally` block's close; on the
normal-completion and thrown-error paths it is closed exactly once, but on
the zero-grants short-circuit path it is closed twice (the explicit close
before the early `return`, then the `finally` close). -/
theorem pipelineTask_close_paths (research : Except String GrantResearchResult)
    (writeReport : GrantResearchResult → Except String String) :
    (pipelineTask research writeReport).getLast? = some WriterAction.close ∧
    countClose (pipelineTask research writeReport)
      = (match research with
         | Except.ok r => if r.grants.length = 0 then 2 else 1
         | Except.error _ => 1) := by
  rcases research with e | r
  · simp [pipelineTask, countClose, isClose]
  · by_cases h : r.grants.length = 0
    · simp [pipelineTask, countClose, isClose, h]
    · rcases hw : writeReport r with e | rep <;>
        simp [pipelineTask, countClose, isClose, h, hw]

/-- C3: when the aggregated grant count is zero the pipeline task emits the
terminal `done` frame whose report is exactly
"No grants found that match your criteria.", and the Report Synthesizer is
never invoked: the trace is one fixed list for EVERY `writeReport`. -/
theorem pipelineTask_zero_grants_done (r : GrantResearchResult)
    (writeReport : GrantResearchResult → Except String String)
    (h : r.grants.length = 0) :
    pipelineTask (Except.ok r) writeReport
      = [WriterAction.write (StreamPayload.progress
           "No grants found. Try refining your search or providing more details about your farm/ranch."),
         WriterAction.write (StreamPayload.done
           "No grants found that match your criteria."),
         WriterAction.close, WriterAction.close] := by
  simp [pipelineTask, h]

theorem pipelineTask_zero_grants_done_witness :
    zeroGrantsResult.grants.length = 0 ∧
    pipelineTask (Except.ok zeroGrantsResult) constReportGen
      = [WriterAction.write (StreamPayload.progress
           "No grants found. Try refining your search or providing more details about your farm/ranch."),
         WriterAction.write (StreamPayload.done
           "No grants found that match your criteria."),
         WriterAction.close, WriterAction.close] :=
  ⟨rfl, pipelineTask_zero_grants_done zeroGrantsResult constReportGen rfl⟩

/-- C8: in the template variant, the string returned by `writeGrantReport`
is exactly the fixed header, then the model-generated report markdown, then
a `## Sources` section built by string concatenation that lists each
element of `visitedUrls` as a bullet line in order — for every template
model and every report model, so the sources are exactly the supplied URLs
regardless of model output. -/
theorem writeGrantReport_sources_structure (query : String)
    (farmType location : Option String) (grants : List GrantInfo)
    (visitedUrls : List String)
    (templateModel : GrantInfo → String → ApplicationTemplate)
    (reportModel : String → String → String → String) :
    writeGrantReport query farmType location grants visitedUrls
        templateModel reportModel
      = "# Agricultural Grant Opportunities Report\n\n"
        ++ reportModel (farmDetailsOf query farmType location)
             (grantsString grants)
             (String.intercalate "\n"
               (((grants.take 3).map (fun grant =>
                   (grant.name,
                    generateGrantTemplate grant
                      (farmDetailsOf query farmType location) templateModel))).map
                 (fun t => templateMarkdownBlock t.1 t.2)))
        ++ ("\n\n## Sources\n\n"
            ++ String.intercalate "\n"
                 (visitedUrls.map (fun url => "- " ++ url))) := rfl
